import Mathlib

/-!
Verification of the lobster-local core: the response extractor and query
orchestration of `lobster/core/client.py`, and the artifact store of
`lobster/core/data_manager.py`, embedded shallowly in Lean.

Python dictionaries, LangChain message objects and pandas frames are
modelled with inductive types; machine behaviour that matters to the
claims (reference aliasing of dictionaries, Python slice semantics,
truthiness of empty strings) is made explicit in the definitions.
-/

set_option maxRecDepth 100000

namespace Lobster

/-! ### Messages and events (client.py)

`AIMessage` / `HumanMessage` contents are strings in every event the
extractor inspects; other message kinds are collapsed into one case.  -/

/-- A LangChain chat message as seen by `_extract_response`. -/
inductive PyMsg
  | ai (content : String)
  | human (content : String)
  | otherMsg
deriving DecidableEq

/-- A value sitting in the second slot of a `result` tuple: either a Python
list of messages, or anything else (which the extractor ignores because of
its `isinstance(value, list)` check). -/
inductive RValue
  | msgList (msgs : List PyMsg)
  | otherVal
deriving DecidableEq

/-- An item of the `result` sequence of a `task_result` payload: a 2-tuple
`(key, value)`, or anything that is not such a tuple. -/
inductive ResultItem
  | pair (key : String) (value : RValue)
  | nonPair
deriving DecidableEq

/-- An execution-engine event as dispatched on by `_extract_response`:
`task_result` carries `payload["result"]`, `checkpoint` carries
`payload["values"]["messages"]` (defaulted to `[]` by the chained `.get`
calls), and any other event type is skipped. -/
inductive Event
  | taskResult (result : List ResultItem)
  | checkpoint (messages : List PyMsg)
  | otherEvent
deriving DecidableEq

/-- Python `str.strip()` restricted to ASCII whitespace: drop whitespace
from both ends of the character list. -/
def pyStrip (s : String) : String :=
  String.mk (((s.data.dropWhile Char.isWhitespace).reverse.dropWhile Char.isWhitespace).reverse)

/-- The answer (if any) one message yields, following
`content = msg.content.strip() if msg.content else ""` followed by
`if content or msg.content == "": return content`.  An `AIMessage` with
content `""` yields `""`; one whose content strips to a nonempty string
yields the stripped string; a nonempty whitespace-only content yields
nothing (the Python condition is false and the loop continues); non-AI
messages yield nothing. -/
def msgAnswer : PyMsg → Option String
  | .ai c => if c = "" then some "" else if pyStrip c ≠ "" then some (pyStrip c) else none
  | _ => none

/-- Reverse scan of a message list for the last AI-authored answer
(`for msg in reversed(value)`). -/
def lastAnswer (msgs : List PyMsg) : Option String :=
  msgs.reverse.findSome? msgAnswer

/-- The answer (if any) one `result` item yields: it must be a 2-tuple
whose key is `"messages"` and whose value is a list. -/
def itemAnswer : ResultItem → Option String
  | .pair k (.msgList v) => if k = "messages" then lastAnswer v else none
  | _ => none

/-- The answer (if any) one event yields.  A `task_result` scans its
`result` items in order (the inner `return` fires on the first success);
a `checkpoint` scans its `values.messages` (an empty list yields nothing,
matching `if messages:`). -/
def eventAnswer : Event → Option String
  | .taskResult result => result.findSome? itemAnswer
  | .checkpoint msgs => lastAnswer msgs
  | .otherEvent => none

/-- `AgentClient._extract_response`: one reverse pass over the events,
returning the first answer found, else the sentinel.  The `if not events`
guard coincides with the empty-scan case.  Note that the pass is a single
interleaved loop over both event kinds (`if ... elif ...` inside one
`for event in reversed(events)`). -/
def extract_response (events : List Event) : String :=
  match events.reverse.findSome? eventAnswer with
  | some s => s
  | none => "No response generated."

/-! ### Parameter dictionaries and the tool-usage log (data_manager.py)

Python passes dictionaries by reference, so `log_tool_usage` storing
`"parameters": parameters` stores an alias of the dictionary object the
caller handed in.  We model this with an explicit heap of dictionaries:
a `ToolRecord` holds a reference (index) into the heap, and a caller
mutating "its" dictionary is a `ParamHeap.setRef` on that index. -/

/-- A Python parameter value (the subset the claims exercise). -/
inductive PVal
  | str (s : String)
  | int (n : Int)
  | intList (l : List Int)
deriving DecidableEq

/-- A Python dictionary of tool parameters. -/
abbrev PDict := List (String × PVal)

/-- One record appended by `log_tool_usage`: tool name, a reference to the
parameters dictionary object, optional description, formatted timestamp. -/
structure ToolRecord where
  tool : String
  paramsRef : Nat
  description : Option String
  timestamp : String
deriving DecidableEq

/-- The heap of live parameter dictionaries; reference `r` denotes the
dictionary object `dicts[r]`. -/
structure ParamHeap where
  dicts : List PDict
deriving DecidableEq

/-- In-place mutation of the dictionary object behind reference `r`
(what a caller does to the mapping it passed to `log_tool_usage`). -/
def ParamHeap.setRef (h : ParamHeap) (r : Nat) (d : PDict) : ParamHeap :=
  ⟨h.dicts.set r d⟩

/-- Dereference the parameters of a stored record, as any history
accessor (`get_technical_summary`, direct reads of
`tool_usage_history`) does. -/
def readParams (h : ParamHeap) (rec : ToolRecord) : Option PDict :=
  h.dicts[rec.paramsRef]?

/-! ### Plots (data_manager.py) -/

/-- The argument of `add_plot`: a plotly figure object (identified by an
opaque key) or anything failing the `isinstance(plot, go.Figure)` check. -/
inductive PlotInput
  | figure (key : Nat)
  | notFigure
deriving DecidableEq

/-- One stored plot entry (`created_at` duplicates `timestamp` in the
source and is not modelled separately). -/
structure PlotEntry where
  id : String
  figKey : Nat
  title : String
  timestamp : String
  source : Option String
deriving DecidableEq

/-! ### The dataset (data_manager.py) -/

/-- One cell of a pandas DataFrame: a number, a missing value (NaN), or a
non-numeric (string) value. -/
inductive Cell
  | num (x : Int)
  | nan
  | strVal (s : String)
deriving DecidableEq

/-- A pandas DataFrame: row index, column names, and the columns
themselves (column-major). -/
structure DataFrame where
  rowNames : List String
  colNames : List String
  cols : List (List Cell)
deriving DecidableEq

/-- `data.shape`: (number of rows, number of columns). -/
def DataFrame.shape (d : DataFrame) : Nat × Nat :=
  (d.rowNames.length, d.colNames.length)

/-- A decimal digit character, by code point. -/
def isDigitChar (c : Char) : Bool :=
  48 ≤ c.toNat && c.toNat ≤ 57

/-- Value of a nonempty all-digit character list. -/
def digitsToNat? (l : List Char) : Option Nat :=
  if l ≠ [] && l.all isDigitChar then
    some (l.foldl (fun a c => a * 10 + (c.toNat - 48)) 0)
  else none

/-- Modelled library call: the numeric-literal parsing inside
`pd.to_numeric`, restricted to (optionally negated) integer literals.
Anything else does not parse. -/
def pyToNumeric? (s : String) : Option Int :=
  match s.data with
  | '-' :: rest => (digitsToNat? rest).map fun n => -(n : Int)
  | l => (digitsToNat? l).map fun n => (n : Int)

/-- Modelled library call: `pd.to_numeric(cell, errors="coerce")` on one
cell: a string cell becomes its parsed number, or missing when
unconvertible; numeric and missing cells pass through. -/
def toNumericCell : Cell → Cell
  | .strVal s =>
      match pyToNumeric? s with
      | some n => .num n
      | none => .nan
  | c => c

/-- A pandas column has dtype `object` exactly when it holds non-numeric
(string) values. -/
def colIsObject (col : List Cell) : Bool :=
  col.any fun c =>
    match c with
    | .strVal _ => true
    | _ => false

/-- The per-column conversion loop of `set_data`: only columns of dtype
`object` are passed through `pd.to_numeric` (the outer
`if data.dtypes.apply(...).any()` guard makes no observable difference,
since it merely skips the loop when no column is `object`). -/
def coerceCol (col : List Cell) : List Cell :=
  if colIsObject col then col.map toNumericCell else col

/-- `data.fillna(0)` on one cell. -/
def fillCell : Cell → Cell
  | .nan => .num 0
  | c => c

/-- The full `set_data` preprocessing: coerce `object` columns to numeric,
then fill missing values with zero.  Row and column labels are untouched. -/
def processFrame (d : DataFrame) : DataFrame :=
  { d with cols := d.cols.map fun col => (coerceCol col).map fillCell }

/-- The cell-level meaning of the preprocessing: numbers survive, missing
values become zero, strings become their parsed value or zero. -/
def processedCell : Cell → Cell
  | .num x => .num x
  | .nan => .num 0
  | .strVal s =>
      match pyToNumeric? s with
      | some n => .num n
      | none => .num 0

/-! ### DataManager state -/

/-- The mutable fields of `DataManager` that the claims are about.
Workspace paths, the console handle and `file_paths` are filesystem
plumbing and are not modelled.  The AnnData projection built by
`_create_anndata` carries exactly the content of the frame it is built
from, so it is modelled as that frame. -/
structure DMState where
  current_data : Option DataFrame
  current_metadata : PDict
  adata : Option DataFrame
  latest_plots : List PlotEntry
  plot_counter : Nat
  processing_log : List String
  tool_usage_history : List ToolRecord
  max_plots_history : Nat
deriving DecidableEq

/-- The field values set by `DataManager.__init__`. -/
def initDM : DMState :=
  { current_data := none
    current_metadata := []
    adata := none
    latest_plots := []
    plot_counter := 0
    processing_log := []
    tool_usage_history := []
    max_plots_history := 50 }

/-- `DataManager.has_data`: a DataFrame is present and both of its
dimensions are positive. -/
def has_data (st : DMState) : Bool :=
  match st.current_data with
  | some d => decide (0 < d.shape.1) && decide (0 < d.shape.2)
  | none => false

/-- The argument of `set_data`: `None`, a non-DataFrame value, or a
DataFrame. -/
inductive DataInput
  | noneInput
  | notFrame
  | frame (d : DataFrame)
deriving DecidableEq

/-- `DataManager.set_data`.  The two validation failures raise
`ValueError`; the `except` clause resets `current_data`,
`current_metadata` and `adata` before re-raising, so the state returned
alongside an error carries those resets.  On success the preprocessed
frame becomes current, the AnnData projection is rebuilt from it,
`metadata or []` becomes current, and a shape line is appended to the
processing log. -/
def set_data (st : DMState) (input : DataInput) (metadata : Option PDict) :
    DMState × Except String DataFrame :=
  match input with
  | .noneInput =>
      ({ st with current_data := none, current_metadata := [], adata := none },
       .error "Data must be a pandas DataFrame.")
  | .notFrame =>
      ({ st with current_data := none, current_metadata := [], adata := none },
       .error "Data must be a pandas DataFrame.")
  | .frame d =>
      if d.shape.1 = 0 ∨ d.shape.2 = 0 then
        ({ st with current_data := none, current_metadata := [], adata := none },
         .error "DataFrame is empty.")
      else
        let d2 := processFrame d
        ({ st with
            current_data := some d2
            current_metadata := metadata.getD []
            adata := some d2
            processing_log := st.processing_log ++
              ["Data loaded: " ++ Nat.repr d2.shape.1 ++ " samples × " ++
                Nat.repr d2.shape.2 ++ " features"] },
         .ok d2)

/-- The payload of a successful `get_data_summary` (the pandas-internal
`data_types` histogram and `memory_usage` strings are opaque library
output and are not modelled). -/
structure DataSummaryInfo where
  shape : Nat × Nat
  columns : List String
  sample_names : List String
  metadata_keys : List String
  processing_log_tail : List String
deriving DecidableEq

/-- The result of `get_data_summary`: the no-data status dictionary, or
the summary fields. -/
inductive DataSummary
  | noData
  | loaded (info : DataSummaryInfo)
deriving DecidableEq

/-- Python slice `l[-n:]` for a nonnegative `n`: the whole list when
`n = 0` (because `-0 == 0`), otherwise the last `n` elements. -/
def pyTailSlice {α : Type} (l : List α) (n : Nat) : List α :=
  if n = 0 then l else l.drop (l.length - n)

/-- `DataManager.get_data_summary`. -/
def get_data_summary (st : DMState) : DataSummary :=
  if has_data st then
    match st.current_data with
    | some d =>
        .loaded
          { shape := d.shape
            columns := d.colNames.take 10
            sample_names := d.rowNames.take 5
            metadata_keys := st.current_metadata.map (·.1)
            processing_log_tail := pyTailSlice st.processing_log 5 }
    | none => .noData
  else .noData

/-! ### Plot operations -/

/-- The plot id string `f"plot_{self.plot_counter}"`. -/
def plotId (n : Nat) : String :=
  "plot_" ++ Nat.repr n

/-- `DataManager.add_plot`.  A non-figure argument raises `ValueError`
before the counter is touched; the `except` clause turns this into a
`none` result with the state unchanged.  Otherwise the counter is
incremented, the entry (with `title or "Untitled"`, which also maps an
empty title to `"Untitled"`) is appended, and one oldest entry is popped
when the collection exceeds `max_plots_history`. -/
def add_plot (st : DMState) (plot : PlotInput) (title : Option String)
    (source : Option String) (now : String) : DMState × Option String :=
  match plot with
  | .notFigure => (st, none)
  | .figure key =>
      let c := st.plot_counter + 1
      let pid := plotId c
      let entryTitle :=
        match title with
        | some t => if t = "" then "Untitled" else t
        | none => "Untitled"
      let entry : PlotEntry :=
        { id := pid, figKey := key, title := entryTitle, timestamp := now, source := source }
      let plots := st.latest_plots ++ [entry]
      let plots := if st.max_plots_history < plots.length then plots.drop 1 else plots
      ({ st with plot_counter := c, latest_plots := plots }, some pid)

/-- `DataManager.clear_plots`. -/
def clear_plots (st : DMState) : DMState :=
  { st with latest_plots := [] }

/-- `DataManager.get_plot_by_id`: the figure of the first entry with the
given id, else `None`. -/
def get_plot_by_id (st : DMState) (pid : String) : Option Nat :=
  (st.latest_plots.find? fun e => e.id = pid).map (·.figKey)

/-- `DataManager.get_latest_plots`: all entries when `n` is omitted,
otherwise the Python slice `latest_plots[-n:]`. -/
def get_latest_plots (st : DMState) (n : Option Nat) : List PlotEntry :=
  match n with
  | none => st.latest_plots
  | some n => pyTailSlice st.latest_plots n

/-- `DataManager.get_plot_history`: the entries minus the figure payload. -/
def get_plot_history (st : DMState) : List (String × String × String × Option String) :=
  st.latest_plots.map fun p => (p.id, p.title, p.timestamp, p.source)

/-- `DataManager.log_tool_usage`: append one record; `now` stands for the
formatted `datetime.now()` value. -/
def log_tool_usage (st : DMState) (tool : String) (paramsRef : Nat)
    (description : Option String) (now : String) : DMState :=
  { st with tool_usage_history := st.tool_usage_history ++
      [{ tool := tool, paramsRef := paramsRef, description := description, timestamp := now }] }

/-- A sequence of `log_tool_usage` calls
(tool, parameters reference, description, timestamp). -/
def logMany (st : DMState) (calls : List (String × Nat × Option String × String)) : DMState :=
  calls.foldl (fun s c => log_tool_usage s c.1 c.2.1 c.2.2.1 c.2.2.2) st

/-- The record one `log_tool_usage` call appends. -/
def mkToolRecord (c : String × Nat × Option String × String) : ToolRecord :=
  { tool := c.1, paramsRef := c.2.1, description := c.2.2.1, timestamp := c.2.2.2 }

/-! ### get_technical_summary -/

/-- Parameter rendering of `get_technical_summary`: a sequence longer
than 5 is shown as its first 5 elements plus a length suffix. -/
def renderParamValue : PVal → String
  | .str s => s
  | .int n => Int.repr n
  | .intList l =>
      if 5 < l.length then
        "[" ++ String.intercalate ", " ((l.take 5).map Int.repr) ++
          "...] (length: " ++ Nat.repr l.length ++ ")"
      else
        "[" ++ String.intercalate ", " (l.map Int.repr) ++ "]"

/-- One tool-usage record as rendered (1-based index), dereferencing the
parameters dictionary through the heap. -/
def renderRecord (h : ParamHeap) (i : Nat) (r : ToolRecord) : String :=
  "### " ++ Nat.repr i ++ ". " ++ r.tool ++ " (" ++ r.timestamp ++ ")\n\n" ++
  (match r.description with
   | some d => if d = "" then "" else d ++ "\n\n"
   | none => "") ++
  "**Parameters:**\n\n" ++
  String.join (((h.dicts[r.paramsRef]?).getD []).map fun p =>
    "- " ++ p.1 ++ ": " ++ renderParamValue p.2 ++ "\n") ++
  "\n"

/-- `DataManager.get_technical_summary` (the pandas memory-usage line is
opaque library output and is rendered as a fixed placeholder). -/
def get_technical_summary (st : DMState) (h : ParamHeap) : String :=
  let s := "# Technical Summary\n\n"
  let s :=
    if has_data st then
      match st.current_data with
      | some d =>
          s ++ "## Data Information\n\n" ++
          "- Shape: " ++ Nat.repr d.shape.1 ++ " rows × " ++
            Nat.repr d.shape.2 ++ " columns\n" ++
          "- Memory usage: (library value) MB\n" ++
          (if st.current_metadata ≠ [] then
            "- Metadata keys: " ++
              String.intercalate ", " ((st.current_metadata.map (·.1)).take 5) ++ "\n"
           else "") ++ "\n"
      | none => s
    else s
  let s :=
    if st.processing_log ≠ [] then
      s ++ "## Processing Log\n\n" ++
      String.join (st.processing_log.map fun e => "- " ++ e ++ "\n") ++ "\n"
    else s
  if st.tool_usage_history ≠ [] then
    s ++ "## Tool Usage History\n\n" ++
    String.join (st.tool_usage_history.enum.map fun p => renderRecord h (p.1 + 1) p.2)
  else s

/-! ### create_data_package -/

/-- One entry of `plots/index.json` (a `source` of Python `None` is
serialized as JSON null, kept here as `Option`). -/
structure IndexEntry where
  id : String
  title : String
  filename : String
  timestamp : String
  source : Option String
deriving DecidableEq

/-- The filename slug: keep alphanumerics, space, underscore and hyphen,
strip trailing whitespace, then turn spaces into underscores. -/
def sanitizeTitle (t : String) : String :=
  let kept := t.data.filter fun c => c.isAlphanum || c = ' ' || c = '_' || c = '-'
  let stripped := (kept.reverse.dropWhile Char.isWhitespace).reverse
  String.mk (stripped.map fun c => if c = ' ' then '_' else c)

/-- `f"{plot_id}_{safe_title}" if safe_title else plot_id`. -/
def filenameBase (pid title : String) : String :=
  let s := sanitizeTitle title
  if s = "" then pid else pid ++ "_" ++ s

/-- The files the per-plot export loop leaves in the staging area.
`fails pid = true` models the static rendering (`pio.write_image`)
raising for that plot: the interactive HTML has already been written when
that happens, the exception is caught and logged, and the metadata file
and index entry for that plot are skipped. -/
def packagePlotFiles (fails : String → Bool) : List PlotEntry → List String
  | [] => []
  | e :: rest =>
      let base := filenameBase e.id e.title
      (if fails e.id then
        ["plots/" ++ base ++ ".html"]
       else
        ["plots/" ++ base ++ ".html", "plots/" ++ base ++ ".png",
         "plots/" ++ base ++ "_info.txt"]) ++
      packagePlotFiles fails rest

/-- The `plots_index` list built by the same loop: a plot whose export
raised is never appended. -/
def packagePlotsIndex (fails : String → Bool) : List PlotEntry → List IndexEntry
  | [] => []
  | e :: rest =>
      (if fails e.id then []
       else
        [{ id := e.id, title := e.title, filename := filenameBase e.id e.title,
           timestamp := e.timestamp, source := e.source }]) ++
      packagePlotsIndex fails rest

/-- The produced archive: the names of the files it contains, the content
of `plots/index.json`, and the entries rendered into `plots/README.md`
(the source builds both from the same `plots_index` list). -/
structure Package where
  fileNames : List String
  plotsIndex : List IndexEntry
  readmeIndex : List IndexEntry
deriving DecidableEq

/-- `DataManager.create_data_package`.  Filesystem writes other than the
parameterized static plot rendering are modelled as succeeding; the only
raise that escapes is the `ValueError` on missing data.  The AnnData
export (present whenever `adata` is set) and the two plot indexes (present
whenever at least one plot is stored) follow the source conditionals. -/
def create_data_package (st : DMState) (fails : String → Bool) :
    Except String Package :=
  if has_data st then
    let base := ["technical_summary.md"] ++
      (if st.current_data.isSome then ["raw_data.csv"] else []) ++
      (if st.adata.isSome then ["processed_data.h5ad"] else [])
    if st.latest_plots.isEmpty then
      .ok { fileNames := base, plotsIndex := [], readmeIndex := [] }
    else
      let idx := packagePlotsIndex fails st.latest_plots
      .ok
        { fileNames := base ++ packagePlotFiles fails st.latest_plots ++
            ["plots/index.json", "plots/README.md"]
          plotsIndex := idx
          readmeIndex := idx }
  else .error "No data to export"

/-! ### Query orchestration (client.py) -/

/-- The `AgentClient` conversation state the claims touch. -/
structure ClientState where
  session_id : String
  messages : List PyMsg
  dm : DMState
deriving DecidableEq

/-- The result dictionary of a non-streaming query turn (the wall-clock
`duration` field is not modelled). -/
inductive QueryResult
  | ok (response : String) (events_count : Nat) (session_id : String)
      (hasData : Bool) (plots : List PlotEntry)
  | err (error : String) (response : String) (session_id : String)
deriving DecidableEq

/-- `AgentClient._run_query`.  The whole body sits in one
`try/except Exception`; the behaviour of `self.graph.stream` (and of
anything else inside the block that can raise) is summarized by the
`engine` argument: a finished event list, or a raised exception carried
as its message string.  On success, `if final_response:` appends the
extracted text as an `AIMessage` only when it is nonempty (Python
truthiness). -/
def run_query (st : ClientState) (engine : Except String (List Event)) :
    ClientState × QueryResult :=
  match engine with
  | .error e => (st, .err e ("I encountered an error: " ++ e) st.session_id)
  | .ok events =>
      let resp := extract_response events
      let st2 :=
        if resp ≠ "" then { st with messages := st.messages ++ [.ai resp] } else st
      (st2,
       .ok resp events.length st.session_id (has_data st.dm)
         (if has_data st.dm then get_latest_plots st.dm (some 5) else []))

/-- `AgentClient.query` with `stream=False`: append the user message,
then run the turn. -/
def query (st : ClientState) (user_input : String)
    (engine : Except String (List Event)) : ClientState × QueryResult :=
  run_query { st with messages := st.messages ++ [.human user_input] } engine

/-! ### Operation traces over the plot store (for lifetime invariants) -/

/-- One plot-store operation. -/
inductive PlotOp
  | add (p : PlotInput) (title : Option String) (source : Option String) (now : String)
  | clear

/-- Apply one operation, returning the new state and the id `add_plot`
returned (if any). -/
def applyOp (st : DMState) : PlotOp → DMState × Option String
  | .add p t s now => add_plot st p t s now
  | .clear => (clear_plots st, none)

/-- Run a trace of operations. -/
def runOps (st : DMState) (ops : List PlotOp) : DMState :=
  ops.foldl (fun s op => (applyOp s op).1) st

/-- The ids returned by the successful `add_plot` calls of a trace, in
call order. -/
def successIds (st : DMState) : List PlotOp → List String
  | [] => []
  | op :: rest =>
      let r := applyOp st op
      (match r.2 with
       | some s => [s]
       | none => []) ++ successIds r.1 rest

/-- Add `n` valid plots in a row (figure keys `0, 1, ...`). -/
def addNPlots (st : DMState) (n : Nat) : DMState :=
  (List.range n).foldl (fun s i => (add_plot s (.figure i) none none "t").1) st

/-! ### Decimal representation: `Nat.repr` is injective

`plot_id` uniqueness rests on the injectivity of the decimal rendering of
the counter.  We relate `Nat.toDigitsCore` to a structural digit-list
function and invert it by evaluating the digits. -/

/-- The decimal digit characters of `n`, most significant first. -/
def digitsChars (n : Nat) : List Char :=
  if n < 10 then [Nat.digitChar n]
  else digitsChars (n / 10) ++ [Nat.digitChar (n % 10)]
decreasing_by exact Nat.div_lt_self (by omega) (by omega)

/-- Numeric value of a decimal digit character. -/
def digitVal (c : Char) : Nat :=
  c.toNat - 48

/-- Evaluate a digit string back to a number. -/
def charsVal (l : List Char) : Nat :=
  l.foldl (fun a c => a * 10 + digitVal c) 0

/-! ### Concrete states used to instantiate the theorems -/

/-- A small mixed-type frame: a missing value, a convertible string and an
unconvertible string among plain numbers. -/
def demoFrame : DataFrame :=
  { rowNames := ["r1", "r2"]
    colNames := ["c1", "c2", "c3"]
    cols := [[.num 1, .nan], [.strVal "4", .strVal "x"], [.num 5, .num 6]] }

/-- A manager state holding valid data. -/
def demoLoaded : DMState :=
  (set_data initDM (.frame demoFrame) none).1

/-- A valid-data state with three registered plots. -/
def demoPackState : DMState :=
  { demoLoaded with
      latest_plots :=
        [{ id := "plot_1", figKey := 0, title := "QC", timestamp := "t1", source := none },
         { id := "plot_2", figKey := 1, title := "Bad", timestamp := "t2", source := some "svc" },
         { id := "plot_3", figKey := 2, title := "Clusters", timestamp := "t3", source := none }]
      plot_counter := 3 }

/-- A static-rendering failure hitting exactly the second plot. -/
def demoFails : String → Bool :=
  fun s => s == "plot_2"

/-! ## Helper lemmas -/

theorem findSome?_append {α β : Type} (f : α → Option β) (l₁ l₂ : List α) :
    (l₁ ++ l₂).findSome? f =
      match l₁.findSome? f with
      | some b => some b
      | none => l₂.findSome? f := by
  induction l₁ with
  | nil => simp [List.findSome?]
  | cons a l ih =>
      simp only [List.cons_append, List.findSome?]
      cases f a <;> simp [ih]

theorem findSome?_eq_none_of_all {α β : Type} (f : α → Option β) (l : List α)
    (h : ∀ a ∈ l, f a = none) : l.findSome? f = none := by
  induction l with
  | nil => rfl
  | cons a l ih =>
      simp only [List.findSome?]
      rw [h a (by simp)]
      exact ih fun a ha => h a (by simp [ha])

theorem toDigitsCore_eq_digitsChars (fuel : Nat) :
    ∀ (n : Nat) (ds : List Char), n < fuel →
      Nat.toDigitsCore 10 fuel n ds = digitsChars n ++ ds := by
  induction fuel with
  | zero => intro n ds h; omega
  | succ fuel ih =>
      intro n ds h
      rw [Nat.toDigitsCore]
      by_cases h10 : n / 10 = 0
      · have hn : n < 10 := by omega
        rw [digitsChars]
        simp [h10, hn, Nat.mod_eq_of_lt hn]
      · have hn : ¬ n < 10 := by omega
        rw [digitsChars]
        simp only [hn, if_false, h10, if_false]
        rw [ih (n / 10) _ (by omega)]
        simp

theorem repr_eq_digitsChars (n : Nat) : Nat.repr n = String.mk (digitsChars n) := by
  show (Nat.toDigits 10 n).asString = _
  rw [Nat.toDigits, toDigitsCore_eq_digitsChars (n + 1) n [] (by omega)]
  simp [List.asString]

theorem digitVal_digitChar (d : Nat) (h : d < 10) : digitVal (Nat.digitChar d) = d := by
  interval_cases d <;> rfl

theorem charsVal_append_digit (l : List Char) (c : Char) :
    charsVal (l ++ [c]) = charsVal l * 10 + digitVal c := by
  simp [charsVal, List.foldl_append]

theorem charsVal_digitsChars (n : Nat) : charsVal (digitsChars n) = n := by
  induction n using Nat.strong_induction_on with
  | _ n ih =>
      rw [digitsChars]
      by_cases h : n < 10
      · simp [h, charsVal, digitVal_digitChar n h]
      · simp only [h, if_false]
        rw [charsVal_append_digit, ih (n / 10) (by omega), digitVal_digitChar _ (by omega)]
        omega

theorem natRepr_inj {m n : Nat} (h : Nat.repr m = Nat.repr n) : m = n := by
  have hd : digitsChars m = digitsChars n := by
    have h2 := h
    rw [repr_eq_digitsChars, repr_eq_digitsChars] at h2
    exact congrArg String.data h2
  calc m = charsVal (digitsChars m) := (charsVal_digitsChars m).symm
    _ = charsVal (digitsChars n) := by rw [hd]
    _ = n := charsVal_digitsChars n

theorem plotId_inj {m n : Nat} (h : plotId m = plotId n) : m = n := by
  apply natRepr_inj
  have h2 := congrArg String.data h
  simp only [plotId, String.data_append] at h2
  have h3 := List.append_cancel_left h2
  exact String.ext h3

/-! ## Claim theorems -/

/-- C1 counterexample: an event sequence in which a `task_result` yields
the answer `"A"` and a later `checkpoint` yields `"B"`.  The claim says
the `task_result` answer `"A"` is returned no matter where the checkpoint
sits; the code returns `"B"`, because its single reverse pass reaches the
later checkpoint first. -/
theorem C1_counterexample :
    extract_response
      [Event.taskResult [ResultItem.pair "messages" (RValue.msgList [PyMsg.ai "A"])],
       Event.checkpoint [PyMsg.ai "B"]] = "B" ∧ ("B" : String) ≠ "A" :=
  ⟨by decide, by decide⟩

/-- C1 (amended): the priority between `task_result` and `checkpoint`
events is positional, not kind-based: `extract_response` returns the
answer of the latest answer-yielding event, whichever its kind — in
particular a `task_result` event wins exactly when no answer-yielding
event follows it. -/
theorem C1_latest_event_wins (es₁ es₂ : List Event) (e : Event) (a : String)
    (hnone : ∀ x ∈ es₂, eventAnswer x = none)
    (h : eventAnswer e = some a) :
    extract_response (es₁ ++ e :: es₂) = a := by
  unfold extract_response
  have h2 : es₂.reverse.findSome? eventAnswer = none :=
    findSome?_eq_none_of_all _ _ fun x hx => hnone x (List.mem_reverse.mp hx)
  rw [List.reverse_append, List.reverse_cons, List.append_assoc, findSome?_append, h2]
  simp [List.findSome?, h]

/-- C1 witness: a checkpoint followed by a `task_result` — the
`task_result` is the latest answer-yielding event and its answer is
returned. -/
theorem C1_witness :
    (∀ x ∈ ([] : List Event), eventAnswer x = none) ∧
    eventAnswer (Event.taskResult [ResultItem.pair "messages" (RValue.msgList [PyMsg.ai "A"])]) =
      some "A" ∧
    extract_response
      ([Event.checkpoint [PyMsg.ai "B"]] ++
        Event.taskResult [ResultItem.pair "messages" (RValue.msgList [PyMsg.ai "A"])] :: []) =
      "A" :=
  ⟨fun x hx => absurd hx (List.not_mem_nil x),
   by decide,
   C1_latest_event_wins [Event.checkpoint [PyMsg.ai "B"]] []
     (Event.taskResult [ResultItem.pair "messages" (RValue.msgList [PyMsg.ai "A"])]) "A"
     (fun x hx => absurd hx (List.not_mem_nil x)) (by decide)⟩

/-- C3 counterexample: the last assistant message has content `"  "`
(nonempty whitespace); the claim says its content is returned verbatim
with no fallback, but the code strips it to `""`, skips it, and returns
the earlier message. -/
theorem C3_counterexample :
    extract_response
      [Event.taskResult [ResultItem.pair "messages"
        (RValue.msgList [PyMsg.ai "early", PyMsg.ai "  "])]] = "early" ∧
    ("early" : String) ≠ "  " :=
  ⟨by decide, by decide⟩

/-- C3 (amended): for a `task_result` event, `extract_response` returns
the stripped content of the last assistant message that qualifies (its
content is the empty string, or strips to a nonempty string); an
explicitly empty content short-circuits to `""` regardless of earlier
messages, while nonempty whitespace-only messages are skipped. -/
theorem C3_stripped_answer (msgs : List PyMsg) (a : String)
    (h : lastAnswer msgs = some a) :
    extract_response [Event.taskResult [ResultItem.pair "messages" (RValue.msgList msgs)]] = a ∧
    extract_response [Event.taskResult
      [ResultItem.pair "messages" (RValue.msgList (msgs ++ [PyMsg.ai ""]))]] = "" := by
  constructor
  · unfold extract_response
    simp [List.findSome?, eventAnswer, itemAnswer, h]
  · unfold extract_response
    have h0 : lastAnswer (msgs ++ [PyMsg.ai ""]) = some "" := by
      unfold lastAnswer
      rw [List.reverse_append]
      simp [List.findSome?, msgAnswer]
    simp [List.findSome?, eventAnswer, itemAnswer, h0]

/-- C3 witness: content `" hi "` is returned stripped as `"hi"`, and an
appended empty assistant message short-circuits to `""`. -/
theorem C3_witness :
    lastAnswer [PyMsg.ai " hi "] = some "hi" ∧
    extract_response [Event.taskResult [ResultItem.pair "messages"
      (RValue.msgList [PyMsg.ai " hi "])]] = "hi" ∧
    extract_response [Event.taskResult [ResultItem.pair "messages"
      (RValue.msgList ([PyMsg.ai " hi "] ++ [PyMsg.ai ""]))]] = "" :=
  ⟨by decide,
   (C3_stripped_answer [PyMsg.ai " hi "] "hi" (by decide)).1,
   (C3_stripped_answer [PyMsg.ai " hi "] "hi" (by decide)).2⟩

/-- C9: `get_latest_plots(0)` returns the whole collection (the Python
slice `latest_plots[-0:]` is `latest_plots[0:]`), not an empty list — in
particular on a state holding three plots it returns all of them. -/
theorem C9_get_latest_plots_zero :
    (∀ st : DMState, get_latest_plots st (some 0) = st.latest_plots) ∧
    get_latest_plots demoPackState (some 0) ≠ [] := by
  refine ⟨fun st => ?_, by decide⟩
  simp [get_latest_plots, pyTailSlice]

/-- C2 counterexample: a record is logged whose parameters dictionary is
the object at reference 0, holding `{k: v}`.  The caller then mutates the
mapping it passed in (the same object), and the parameters any accessor
reads back from the stored record are now `{k: w}` — the stored record is
not immutable. -/
theorem C2_counterexample :
    (log_tool_usage initDM "qc" 0 none "ts").tool_usage_history =
      [{ tool := "qc", paramsRef := 0, description := none, timestamp := "ts" }] ∧
    readParams ⟨[[("k", PVal.str "v")]]⟩
      { tool := "qc", paramsRef := 0, description := none, timestamp := "ts" } =
      some [("k", PVal.str "v")] ∧
    readParams (ParamHeap.setRef ⟨[[("k", PVal.str "v")]]⟩ 0 [("k", PVal.str "w")])
      { tool := "qc", paramsRef := 0, description := none, timestamp := "ts" } =
      some [("k", PVal.str "w")] ∧
    ([("k", PVal.str "w")] : PDict) ≠ [("k", PVal.str "v")] :=
  ⟨by decide, by decide, by decide, by decide⟩

/-- C2 (amended): records appended by `log_tool_usage` are kept in strict
insertion order with their name/description/timestamp fields fixed, but
the stored record aliases the parameters dictionary the caller passed in:
mutating that dictionary afterwards changes the parameters every history
accessor reads back through the record. -/
theorem C2_order_and_alias :
    (∀ (st : DMState) (calls : List (String × Nat × Option String × String)),
      (logMany st calls).tool_usage_history =
        st.tool_usage_history ++ calls.map mkToolRecord) ∧
    (∀ (h : ParamHeap) (rec : ToolRecord) (newd : PDict),
      rec.paramsRef < h.dicts.length →
      readParams (h.setRef rec.paramsRef newd) rec = some newd) := by
  constructor
  · intro st calls
    induction calls generalizing st with
    | nil => simp [logMany]
    | cons c rest ih =>
        have hstep : logMany st (c :: rest) =
            logMany (log_tool_usage st c.1 c.2.1 c.2.2.1 c.2.2.2) rest := rfl
        rw [hstep, ih]
        simp [log_tool_usage, mkToolRecord]
  · intro h rec newd hlt
    simp [readParams, ParamHeap.setRef, List.getElem?_set, hlt]

/-- C2 witness: two calls land in order after an empty history, and a
mutation through the stored reference is read back. -/
theorem C2_witness :
    ((logMany initDM [("qc", 0, none, "t1"), ("cluster", 1, none, "t2")]).tool_usage_history =
      initDM.tool_usage_history ++
        ([("qc", 0, none, "t1"), ("cluster", 1, none, "t2")] :
          List (String × Nat × Option String × String)).map mkToolRecord) ∧
    (0 : Nat) < (⟨[[("k", PVal.str "v")]]⟩ : ParamHeap).dicts.length ∧
    readParams
      (ParamHeap.setRef ⟨[[("k", PVal.str "v")]]⟩
        ({ tool := "qc", paramsRef := 0, description := none, timestamp := "ts" } :
          ToolRecord).paramsRef [("k", PVal.str "w")])
      { tool := "qc", paramsRef := 0, description := none, timestamp := "ts" } =
      some [("k", PVal.str "w")] :=
  ⟨C2_order_and_alias.1 initDM _,
   by decide,
   C2_order_and_alias.2 ⟨[[("k", PVal.str "v")]]⟩
     { tool := "qc", paramsRef := 0, description := none, timestamp := "ts" }
     [("k", PVal.str "w")] (by decide)⟩

/-- C4: for `None`, a non-DataFrame value, or an empty-dimension frame,
`set_data` raises and afterwards `has_data()` is false — also when valid
data had been loaded before, since the handler clears `current_data`
before re-raising. -/
theorem C4_set_data_invalid (st : DMState) (input : DataInput) (md : Option PDict)
    (h : input = .noneInput ∨ input = .notFrame ∨
      ∃ d, input = .frame d ∧ (d.shape.1 = 0 ∨ d.shape.2 = 0)) :
    (∃ e, (set_data st input md).2 = .error e) ∧
    has_data (set_data st input md).1 = false := by
  rcases h with h | h | ⟨d, rfl, hd⟩
  · subst h; exact ⟨⟨_, rfl⟩, rfl⟩
  · subst h; exact ⟨⟨_, rfl⟩, rfl⟩
  · simp only [set_data, if_pos hd]
    exact ⟨⟨_, rfl⟩, rfl⟩

/-- C4 witness: a state that currently holds valid data receives
`set_data(None)`; the call errors and `has_data()` is false afterwards. -/
theorem C4_witness :
    has_data demoLoaded = true ∧
    (DataInput.noneInput = DataInput.noneInput ∨ DataInput.noneInput = DataInput.notFrame ∨
      ∃ d, DataInput.noneInput = DataInput.frame d ∧ (d.shape.1 = 0 ∨ d.shape.2 = 0)) ∧
    (∃ e, (set_data demoLoaded .noneInput none).2 = .error e) ∧
    has_data (set_data demoLoaded .noneInput none).1 = false :=
  ⟨by decide, Or.inl rfl,
   (C4_set_data_invalid demoLoaded .noneInput none (Or.inl rfl)).1,
   (C4_set_data_invalid demoLoaded .noneInput none (Or.inl rfl)).2⟩

/-- Per-column: coercing then zero-filling is the cell-wise
`processedCell` map, whether or not the column had dtype `object`. -/
theorem processCol_eq (col : List Cell) :
    (coerceCol col).map fillCell = col.map processedCell := by
  unfold coerceCol
  by_cases h : colIsObject col
  · simp only [h, if_true, List.map_map]
    apply List.map_congr_left
    intro c _
    cases c with
    | num x => rfl
    | nan => rfl
    | strVal s =>
        simp only [Function.comp_apply, toNumericCell, processedCell]
        cases pyToNumeric? s <;> rfl
  · simp only [h, if_false]
    apply List.map_congr_left
    intro c hc
    cases c with
    | num x => rfl
    | nan => rfl
    | strVal s =>
        exfalso
        simp only [colIsObject, List.any_eq_true] at h
        exact h ⟨.strVal s, hc, rfl⟩

/-- C5: a frame with positive dimensions is accepted: `has_data()` holds
afterwards, the summary reports the input shape, and the stored frame is
the cell-wise processed input — every number survives, every missing
value and every unconvertible string becomes zero. -/
theorem C5_set_data_valid (st : DMState) (d : DataFrame) (md : Option PDict)
    (hr : 0 < d.shape.1) (hc : 0 < d.shape.2) :
    (set_data st (.frame d) md).2 = .ok (processFrame d) ∧
    has_data (set_data st (.frame d) md).1 = true ∧
    (∃ info, get_data_summary (set_data st (.frame d) md).1 = .loaded info ∧
      info.shape = d.shape) ∧
    (processFrame d).cols = d.cols.map (fun col => col.map processedCell) ∧
    (∀ c : Cell, ∃ x : Int, processedCell c = .num x) ∧
    processedCell .nan = .num 0 ∧
    (∀ s : String, pyToNumeric? s = none → processedCell (.strVal s) = .num 0) := by
  have hcond : ¬ (d.shape.1 = 0 ∨ d.shape.2 = 0) := by omega
  have hsd : set_data st (.frame d) md =
      ({ st with
          current_data := some (processFrame d)
          current_metadata := md.getD []
          adata := some (processFrame d)
          processing_log := st.processing_log ++
            ["Data loaded: " ++ Nat.repr (processFrame d).shape.1 ++ " samples × " ++
              Nat.repr (processFrame d).shape.2 ++ " features"] },
       .ok (processFrame d)) := by
    simp only [set_data, if_neg hcond]
  have hshape : (processFrame d).shape = d.shape := rfl
  have hhd : has_data (set_data st (.frame d) md).1 = true := by
    rw [hsd]
    simp [has_data, hshape, hr, hc]
  refine ⟨by rw [hsd], hhd, ?_, ?_, ?_, rfl, ?_⟩
  · refine
      ⟨{ shape := d.shape
         columns := d.colNames.take 10
         sample_names := d.rowNames.take 5
         metadata_keys := (md.getD []).map (·.1)
         processing_log_tail := pyTailSlice (st.processing_log ++
           ["Data loaded: " ++ Nat.repr (processFrame d).shape.1 ++ " samples × " ++
             Nat.repr (processFrame d).shape.2 ++ " features"]) 5 }, ?_, rfl⟩
    rw [hsd] at hhd ⊢
    simp only [get_data_summary, hhd, if_true]
    rfl
  · simp only [processFrame]
    apply List.map_congr_left
    intro col _
    exact processCol_eq col
  · intro c
    cases c with
    | num x => exact ⟨x, rfl⟩
    | nan => exact ⟨0, rfl⟩
    | strVal s =>
        simp only [processedCell]
        cases pyToNumeric? s with
        | none => exact ⟨0, rfl⟩
        | some n => exact ⟨n, rfl⟩
  · intro s hs
    simp [processedCell, hs]

/-- C5 witness: the demo frame (2 × 3, with a missing cell, a parsable
string and an unparsable string) is accepted, and its processed form has
the missing and unparsable cells zero-filled. -/
theorem C5_witness :
    0 < demoFrame.shape.1 ∧ 0 < demoFrame.shape.2 ∧
    (set_data initDM (.frame demoFrame) none).2 = .ok (processFrame demoFrame) ∧
    has_data (set_data initDM (.frame demoFrame) none).1 = true ∧
    processFrame demoFrame =
      { rowNames := ["r1", "r2"], colNames := ["c1", "c2", "c3"],
        cols := [[.num 1, .num 0], [.num 4, .num 0], [.num 5, .num 6]] } :=
  ⟨by decide, by decide,
   (C5_set_data_valid initDM demoFrame none (by decide) (by decide)).1,
   (C5_set_data_valid initDM demoFrame none (by decide) (by decide)).2.1,
   by decide⟩

/-- C7: the whole non-streaming turn sits inside one
`try/except Exception`; `query` is a total function into result records —
an engine (or extraction-path) exception surfaces as the structured
failure record with `success: false` and the
`"I encountered an error: ..."` response, and a finished engine run
surfaces as a success record. -/
theorem C7_error_conversion (st : ClientState) (input : String)
    (engine : Except String (List Event)) :
    (∀ e, engine = .error e →
      (query st input engine).2 = .err e ("I encountered an error: " ++ e) st.session_id) ∧
    (∀ events, engine = .ok events →
      ∃ resp plots, (query st input engine).2 =
        .ok resp events.length st.session_id (has_data st.dm) plots) := by
  constructor
  · rintro e rfl
    rfl
  · rintro events rfl
    exact ⟨_, _, rfl⟩

/-- C7 witness: a raising engine produces the error record. -/
theorem C7_witness :
    ((.error "boom" : Except String (List Event)) = .error "boom") ∧
    (query ⟨"s1", [], initDM⟩ "hi" (.error "boom")).2 =
      .err "boom" "I encountered an error: boom" "s1" :=
  ⟨rfl, (C7_error_conversion ⟨"s1", [], initDM⟩ "hi" (.error "boom")).1 "boom" rfl⟩

/-- C6: `add_plot` preserves the capacity bound (one oldest entry is
evicted as soon as the collection would exceed it), `clear_plots` empties
the collection, and concretely: 51 plots added to a fresh store (maximum
50) leave exactly 50 entries, the first-added `plot_1` is gone, and
`get_latest_plots(1)` is the 51st-added plot. -/
theorem C6_plot_capacity :
    (∀ (st : DMState) (p : PlotInput) (t s : Option String) (now : String),
      st.latest_plots.length ≤ st.max_plots_history →
      (add_plot st p t s now).1.latest_plots.length ≤ st.max_plots_history) ∧
    (∀ st : DMState, (clear_plots st).latest_plots.length = 0) ∧
    (addNPlots initDM 51).latest_plots.length = 50 ∧
    (∀ e ∈ (addNPlots initDM 51).latest_plots, e.id ≠ "plot_1") ∧
    get_latest_plots (addNPlots initDM 51) (some 1) =
      [{ id := "plot_51", figKey := 50, title := "Untitled", timestamp := "t", source := none }] := by
  refine ⟨?_, fun st => rfl, by decide, by decide, by decide⟩
  intro st p t s now h
  cases p with
  | notFigure => simpa [add_plot] using h
  | figure key =>
      simp only [add_plot]
      split_ifs with hcond
      · simp only [List.length_drop, List.length_append, List.length_cons, List.length_nil]
        omega
      · simp only [List.length_append, List.length_cons, List.length_nil] at hcond ⊢
        omega

/-- C6 witness: the capacity bound applied at the full 50-entry store. -/
theorem C6_witness :
    (addNPlots initDM 51).latest_plots.length ≤ (addNPlots initDM 51).max_plots_history ∧
    (add_plot (addNPlots initDM 51) (.figure 51) none none "t").1.latest_plots.length ≤
      (addNPlots initDM 51).max_plots_history :=
  ⟨by decide,
   C6_plot_capacity.1 (addNPlots initDM 51) (.figure 51) none none "t" (by decide)⟩

/-- Both renderings of a plot whose static rendering does not fail end up
in the staging area. -/
theorem packagePlotFiles_mem (fails : String → Bool) (plots : List PlotEntry)
    (e : PlotEntry) (he : e ∈ plots) (hf : fails e.id = false) :
    ("plots/" ++ filenameBase e.id e.title ++ ".html") ∈ packagePlotFiles fails plots ∧
    ("plots/" ++ filenameBase e.id e.title ++ ".png") ∈ packagePlotFiles fails plots := by
  induction plots with
  | nil => cases he
  | cons a rest ih =>
      rcases List.mem_cons.mp he with rfl | hmem
      · constructor <;> simp [packagePlotFiles, hf]
      · rcases ih hmem with ⟨h1, h2⟩
        exact ⟨by unfold packagePlotFiles; exact List.mem_append_right _ h1,
               by unfold packagePlotFiles; exact List.mem_append_right _ h2⟩

/-- A plot whose static rendering does not fail is listed in the index. -/
theorem packagePlotsIndex_mem (fails : String → Bool) (plots : List PlotEntry)
    (e : PlotEntry) (he : e ∈ plots) (hf : fails e.id = false) :
    ({ id := e.id, title := e.title, filename := filenameBase e.id e.title,
       timestamp := e.timestamp, source := e.source } : IndexEntry) ∈
      packagePlotsIndex fails plots := by
  induction plots with
  | nil => cases he
  | cons a rest ih =>
      rcases List.mem_cons.mp he with rfl | hmem
      · simp [packagePlotsIndex, hf]
      · unfold packagePlotsIndex
        exact List.mem_append_right _ (ih hmem)

/-- No failing plot ever reaches the index. -/
theorem packagePlotsIndex_ok (fails : String → Bool) (plots : List PlotEntry) :
    ∀ ie ∈ packagePlotsIndex fails plots, fails ie.id = false := by
  induction plots with
  | nil => intro ie h; cases h
  | cons a rest ih =>
      intro ie h
      unfold packagePlotsIndex at h
      rcases List.mem_append.mp h with h1 | h2
      · by_cases hf : fails a.id
        · simp [hf] at h1
        · simp only [hf, Bool.false_eq_true, if_neg, List.mem_singleton,
            if_false] at h1
          subst h1
          simpa using hf
      · exact ih ie h2

/-- C8: `create_data_package` aborts only when no data is loaded;
otherwise it completes even when static rendering raises for some plots:
the archive holds the technical summary, the raw-data export, and both
renderings of every unaffected plot, while a failing plot reaches neither
`plots/index.json` nor `plots/README.md`. -/
theorem C8_package_partial_failure (st : DMState) (fails : String → Bool) :
    (has_data st = false → create_data_package st fails = .error "No data to export") ∧
    (has_data st = true → ∃ pkg, create_data_package st fails = .ok pkg ∧
      "technical_summary.md" ∈ pkg.fileNames ∧
      "raw_data.csv" ∈ pkg.fileNames ∧
      (∀ e ∈ st.latest_plots, fails e.id = false →
        ("plots/" ++ filenameBase e.id e.title ++ ".html") ∈ pkg.fileNames ∧
        ("plots/" ++ filenameBase e.id e.title ++ ".png") ∈ pkg.fileNames ∧
        ({ id := e.id, title := e.title, filename := filenameBase e.id e.title,
           timestamp := e.timestamp, source := e.source } : IndexEntry) ∈ pkg.plotsIndex) ∧
      (∀ ie ∈ pkg.plotsIndex, fails ie.id = false) ∧
      (∀ ie ∈ pkg.readmeIndex, fails ie.id = false)) := by
  constructor
  · intro h
    simp [create_data_package, h]
  · intro h
    have hsome : st.current_data.isSome := by
      cases hc : st.current_data with
      | none => rw [has_data, hc] at h; cases h
      | some d => rfl
    simp only [create_data_package, h, if_true]
    by_cases hpl : st.latest_plots.isEmpty
    · rw [if_pos hpl]
      have hnil : st.latest_plots = [] := List.isEmpty_iff.mp hpl
      refine ⟨_, rfl, by simp, by simp [hsome], ?_, ?_, ?_⟩
      · intro e he
        rw [hnil] at he
        cases he
      · intro ie hie
        cases hie
      · intro ie hie
        cases hie
    · rw [if_neg hpl]
      refine ⟨_, rfl, by simp, by simp [hsome], ?_, ?_, ?_⟩
      · intro e he hf
        rcases packagePlotFiles_mem fails st.latest_plots e he hf with ⟨h1, h2⟩
        refine ⟨?_, ?_, packagePlotsIndex_mem fails st.latest_plots e he hf⟩
        · exact List.mem_append_left _ (List.mem_append_right _ h1)
        · exact List.mem_append_left _ (List.mem_append_right _ h2)
      · exact packagePlotsIndex_ok fails st.latest_plots
      · exact packagePlotsIndex_ok fails st.latest_plots

/-- C8 witness: the three-plot demo state, with the static rendering of
`plot_2` raising: the package is produced, holds the summary, the CSV and
the renderings of `plot_1` and `plot_3`, and its indexes list no failing
plot. -/
theorem C8_witness :
    has_data demoPackState = true ∧
    (∃ pkg, create_data_package demoPackState demoFails = .ok pkg ∧
      "technical_summary.md" ∈ pkg.fileNames ∧
      "raw_data.csv" ∈ pkg.fileNames ∧
      (∀ e ∈ demoPackState.latest_plots, demoFails e.id = false →
        ("plots/" ++ filenameBase e.id e.title ++ ".html") ∈ pkg.fileNames ∧
        ("plots/" ++ filenameBase e.id e.title ++ ".png") ∈ pkg.fileNames ∧
        ({ id := e.id, title := e.title, filename := filenameBase e.id e.title,
           timestamp := e.timestamp, source := e.source } : IndexEntry) ∈ pkg.plotsIndex) ∧
      (∀ ie ∈ pkg.plotsIndex, demoFails ie.id = false) ∧
      (∀ ie ∈ pkg.readmeIndex, demoFails ie.id = false)) :=
  ⟨by decide, (C8_package_partial_failure demoPackState demoFails).2 (by decide)⟩

/-- No plot-store operation decreases the id counter (in particular
`clear_plots` and eviction leave it untouched). -/
theorem applyOp_counter_le (st : DMState) (op : PlotOp) :
    st.plot_counter ≤ ((applyOp st op).1).plot_counter := by
  cases op with
  | clear => exact Nat.le_refl _
  | add p t s now =>
      cases p with
      | notFigure => exact Nat.le_refl _
      | figure key =>
          simp only [applyOp, add_plot]
          omega

/-- Every id a trace returns is the rendering of a counter value strictly
above the starting counter. -/
theorem successIds_spec (ops : List PlotOp) : ∀ (st : DMState) (s : String),
    s ∈ successIds st ops → ∃ n, s = plotId n ∧ st.plot_counter < n := by
  induction ops with
  | nil => intro st s h; cases h
  | cons op rest ih =>
      intro st s h
      unfold successIds at h
      rcases List.mem_append.mp h with h1 | h2
      · cases op with
        | clear => simp [applyOp, clear_plots] at h1
        | add p t s2 now =>
            cases p with
            | notFigure => simp [applyOp, add_plot] at h1
            | figure key =>
                simp only [applyOp, add_plot, List.mem_singleton] at h1
                exact ⟨st.plot_counter + 1, h1, by omega⟩
      · obtain ⟨n, hn, hlt⟩ := ih (applyOp st op).1 s h2
        exact ⟨n, hn, Nat.lt_of_le_of_lt (applyOp_counter_le st op) hlt⟩

/-- The ids returned along a trace are pairwise distinct. -/
theorem successIds_nodup (ops : List PlotOp) : ∀ st : DMState, (successIds st ops).Nodup := by
  induction ops with
  | nil => intro st; exact List.nodup_nil
  | cons op rest ih =>
      intro st
      unfold successIds
      cases op with
      | clear => simpa [applyOp, clear_plots] using ih _
      | add p t s now =>
          cases p with
          | notFigure => simpa [applyOp, add_plot] using ih _
          | figure key =>
              simp only [applyOp, add_plot, List.singleton_append]
              refine List.nodup_cons.mpr ⟨?_, ih _⟩
              intro hmem
              obtain ⟨n, hn, hlt⟩ := successIds_spec rest _ _ hmem
              have : st.plot_counter + 1 = n := plotId_inj hn
              simp only [add_plot] at hlt
              omega

/-- C10: the id counter never decreases under any operation, the ids
returned by the successful `add_plot` calls of any trace (eviction and
`clear_plots` included) are pairwise distinct, and `get_plot_by_id`
returns the not-found indicator after `clear_plots` and, generally, for
any id no retained entry carries. -/
theorem C10_plot_id_unique :
    (∀ (st : DMState) (op : PlotOp), st.plot_counter ≤ ((applyOp st op).1).plot_counter) ∧
    (∀ (st : DMState) (ops : List PlotOp), (successIds st ops).Nodup) ∧
    (∀ (st : DMState) (pid : String), get_plot_by_id (clear_plots st) pid = none) ∧
    (∀ (st : DMState) (pid : String),
      (∀ e ∈ st.latest_plots, e.id ≠ pid) → get_plot_by_id st pid = none) := by
  refine ⟨applyOp_counter_le, fun st ops => successIds_nodup ops st, ?_, ?_⟩
  · intro st pid
    rfl
  · intro st pid h
    have hfind : List.find? (fun e => decide (e.id = pid)) st.latest_plots = none :=
      List.find?_eq_none.mpr fun e he => by simpa using h e he
    simp [get_plot_by_id, hfind]

/-- C10 witness: an id returned before a `clear_plots` is not reused
after it, and looking it up after the clear yields the not-found
indicator. -/
theorem C10_witness :
    successIds initDM
      [PlotOp.add (.figure 0) none none "t", PlotOp.clear,
       PlotOp.add (.figure 1) none none "t"] = ["plot_1", "plot_2"] ∧
    (∀ e ∈ (clear_plots (addNPlots initDM 2)).latest_plots, e.id ≠ "plot_1") ∧
    get_plot_by_id (clear_plots (addNPlots initDM 2)) "plot_1" = none :=
  ⟨by decide, by decide,
   C10_plot_id_unique.2.2.2 (clear_plots (addNPlots initDM 2)) "plot_1" (by decide)⟩

end Lobster









